import Mathlib

/-!
Shallow embedding of `packages/plugin-framework/src/symbol-table.ts` and
`packages/runtime/src/reflection-long-convert.ts`.

Descriptors (`AnyTypeDescriptorProto`) and files (`GeneratedFile`) are external
collaborators compared by identity in the source (`===`); they are embedded as
opaque `Nat` handles.  Thrown `Error`s are embedded as a structured error type
whose fields carry the data interpolated into the message string.  The mutable
`entries` array is threaded explicitly: `register` returns the result of the
call together with the `entries` array as it stands after the call.
-/

namespace SymbolTable

/-- One element of the private `entries` array (`SymbolTableEntry`). -/
structure Entry where
  file : Nat
  descriptor : Nat
  name : String
  kind : String
deriving DecidableEq

/-- The errors thrown by the table, with the data their messages interpolate. -/
inductive SymError where
  | duplicateRegistration (requestedName kind : String) (existingFile : Nat) (existingName : String)
  | clashResolutionExhausted (requestedName : String) (maxTries : Nat)
  | symbolNotFound (kind : String) (searchedFiles : Nat)
deriving DecidableEq

/-- `private readonly clashResolveMaxTries = 100`. -/
def clashResolveMaxTries : Nat := 100

/-- `type ClashResolver = (descriptor, file, requestedName, kind, tryCount, failedName) => string`. -/
abbrev ClashResolver := Nat → Nat → String → String → Nat → String → String

/-- `find(descriptor, kind = 'default')`:
`this.entries.find(e => e.descriptor === descriptor && e.kind === kind)`. -/
def find (entries : List Entry) (descriptor : Nat) (kind : String := "default") : Option Entry :=
  entries.find? fun e => e.descriptor == descriptor && e.kind == kind

/-- The deduplicated file list built inside `get`:
`this.entries.map(e => e.file).filter((value, index, array) => array.indexOf(value) === index)`. -/
def distinctFiles (entries : List Entry) : List Nat :=
  let files := entries.map Entry.file
  (files.enum.filter fun p => files.indexOf p.2 == p.1).map Prod.snd

/-- `get(descriptor, kind = 'default')`: like `find` but throws when absent;
the message reports `kind` and `files.length`. -/
def get (entries : List Entry) (descriptor : Nat) (kind : String := "default") :
    Except SymError Entry :=
  match find entries descriptor kind with
  | some found => .ok found
  | none => .error (.symbolNotFound kind (distinctFiles entries).length)

/-- The second parameter of the `has` implementation signature,
`b: GeneratedFile | string = 'default'`. -/
inductive FileOrKind where
  | file (f : Nat)
  | kind (k : String)

/-- The single `has` implementation body.  Note that it ignores `b` completely:
`return this.find(descriptor, kind) !== undefined`. -/
def has (entries : List Entry) (descriptor : Nat) (b : FileOrKind := .kind "default")
    (kind : String := "default") : Bool :=
  let _ := b
  (find entries descriptor kind).isSome

/-- A call through the two-argument overload `has(descriptor, kind?)`:
the kind string is passed as `b`, the `kind` parameter keeps its default. -/
def hasKind (entries : List Entry) (descriptor : Nat) (kind : String := "default") : Bool :=
  has entries descriptor (.kind kind) "default"

/-- A call through the three-argument overload `has(descriptor, file, kind?)`:
the file is passed as `b`, the kind string as `kind`. -/
def hasInFile (entries : List Entry) (descriptor : Nat) (file : Nat)
    (kind : String := "default") : Bool :=
  has entries descriptor (.file file) kind

/-- `hasNameInFile = (name, file) => this.entries.some(e => e.file === file && e.name === name)`. -/
def hasNameInFile (entries : List Entry) (name : String) (file : Nat) : Bool :=
  entries.any fun e => e.file == file && e.name == name

/-- JavaScript `s.endsWith(post)`: `post` is a suffix of `s`. -/
def strEndsWith (s post : String) : Bool :=
  post.data.isSuffixOf s.data

/-- `static defaultClashResolver(descriptor, file, requestedName, kind, tryCount)`:
`let n = requestedName; n = n.endsWith('$') ? n.substring(1) : n; return n + '$' + tryCount`.
(JavaScript `substring(1)` drops the first character.) -/
def defaultClashResolver (descriptor file : Nat) (requestedName kind : String)
    (tryCount : Nat) : String :=
  let _ := descriptor
  let _ := file
  let _ := kind
  let n := requestedName
  let n := if strEndsWith n "$" then n.drop 1 else n
  n ++ "$" ++ toString tryCount

/-- The constructor default `clashResolver ?? SymbolTable.defaultClashResolver`:
the static resolver used as a `ClashResolver` (its sixth argument is ignored,
as a five-parameter JavaScript function ignores a sixth argument). -/
def defaultResolver : ClashResolver :=
  fun d f rn k tc _failedName => defaultClashResolver d f rn k tc

/-- One invocation of the clash resolver made by `register`, with the
arguments the source passes: `this.clashResolver(descriptor, file,
requestedName, kind, ++count, name)`. -/
structure ResolverCall where
  descriptor : Nat
  file : Nat
  requestedName : String
  kind : String
  tryCount : Nat
  failedName : String
deriving DecidableEq

/-- The loop `while (this.hasNameInFile(name, file) && count < this.clashResolveMaxTries)
{ name = this.clashResolver(descriptor, file, requestedName, kind, ++count, name); }`,
returning the final `name`, the final `count`, and the trace of resolver calls made.
`fuel` is a termination device: each iteration increments `count`, so
`clashResolveMaxTries - count` iterations always suffice. -/
def resolveLoopAux (entries : List Entry) (resolver : ClashResolver) (descriptor file : Nat)
    (requestedName kind : String) : Nat → String → Nat → String × Nat × List ResolverCall
  | 0, name, count => (name, count, [])
  | fuel + 1, name, count =>
    if hasNameInFile entries name file = true ∧ count < clashResolveMaxTries then
      let next := resolver descriptor file requestedName kind (count + 1) name
      let rest := resolveLoopAux entries resolver descriptor file requestedName kind
        fuel next (count + 1)
      (rest.1, rest.2.1, ⟨descriptor, file, requestedName, kind, count + 1, name⟩ :: rest.2.2)
    else
      (name, count, [])

/-- The resolver loop of `register`, entered with the current `name` and `count`. -/
def resolveLoop (entries : List Entry) (resolver : ClashResolver) (descriptor file : Nat)
    (requestedName kind : String) (name : String) (count : Nat) :
    String × Nat × List ResolverCall :=
  resolveLoopAux entries resolver descriptor file requestedName kind
    (clashResolveMaxTries - count) name count

/-- `register(requestedName, descriptor, file, kind = 'default')`.  Returns the
call's outcome together with the `entries` array after the call (a throw leaves
it untouched; the single `push` happens last).  The duplicate check is the
source's `if (this.has(descriptor, kind))` — a two-argument `has` call — and the
error message is built from `this.get(descriptor, kind)`, whose own throw would
propagate. -/
def register (entries : List Entry) (resolver : ClashResolver) (requestedName : String)
    (descriptor file : Nat) (kind : String := "default") :
    Except SymError String × List Entry :=
  if hasKind entries descriptor kind then
    match get entries descriptor kind with
    | .ok e => (.error (.duplicateRegistration requestedName kind e.file e.name), entries)
    | .error err => (.error err, entries)
  else
    let name := (resolveLoop entries resolver descriptor file requestedName kind
      requestedName 0).1
    if hasNameInFile entries name file then
      (.error (.clashResolutionExhausted requestedName clashResolveMaxTries), entries)
    else
      (.ok name, entries ++ [⟨file, descriptor, name, kind⟩])

/-- One mutating operation on a table: a `register` call with the given
requested name, descriptor, file and kind (the other methods never mutate). -/
def applyOp (resolver : ClashResolver) (entries : List Entry)
    (op : String × Nat × Nat × String) : List Entry :=
  (register entries resolver op.1 op.2.1 op.2.2.1 op.2.2.2).2

/-- The `entries` array of a table built by a sequence of `register` calls,
starting from the empty array of the constructor. -/
def runOps (resolver : ClashResolver) (ops : List (String × Nat × Nat × String)) : List Entry :=
  ops.foldl (applyOp resolver) []

/-- Pairwise file-name disjointness of the entries array: no two distinct
entries share both their file and their name. -/
def FileNameDisjoint (entries : List Entry) : Prop :=
  entries.Pairwise fun r1 r2 => r1.file = r2.file → r1.name = r2.name → False

/-- A clash resolver that ignores its arguments and always proposes the
name `"taken"`. -/
def constTakenResolver : ClashResolver :=
  fun _ _ _ _ _ _ => "taken"

/-- Relation between consecutive resolver calls inside one `register`: the
later call's failed-name argument is the name the earlier call returned. -/
def resolverChain (resolver : ClashResolver) (c c2 : ResolverCall) : Prop :=
  c2.failedName = resolver c.descriptor c.file c.requestedName c.kind c.tryCount c.failedName

end SymbolTable

namespace RuntimeLong

/-- The `LongType` enum from `reflection-info` (BIGINT, STRING, NUMBER). -/
inductive LongType where
  | BIGINT
  | STRING
  | NUMBER
deriving DecidableEq

/-- Opaque view of a `PbLong | PbULong` value: the results its three
conversion methods would produce (the classes themselves are external to the
excerpt; only the results of `toBigInt()`, `toNumber()` and `toString()` are
observed by `reflectionLongConvert`). -/
structure PbLongLike where
  toBigIntVal : Int
  toNumberVal : Int
  toStringVal : String
deriving DecidableEq

/-- A JavaScript `string | number | bigint` value. -/
inductive JsLongValue where
  | str (s : String)
  | num (n : Int)
  | big (i : Int)
deriving DecidableEq

/-- `reflectionLongConvert(long, type)`: `switch (type) { case LongType.BIGINT:
return long.toBigInt(); case LongType.NUMBER: return long.toNumber();
default: return long.toString(); }` — the `default` arm covers both
`LongType.STRING` and `undefined` (the argument is `LongType | undefined`,
embedded as `Option LongType`). -/
def reflectionLongConvert (long : PbLongLike) (type : Option LongType) : JsLongValue :=
  match type with
  | some .BIGINT => .big long.toBigIntVal
  | some .NUMBER => .num long.toNumberVal
  | _ => .str long.toStringVal

end RuntimeLong

namespace SymbolTable

/-- Case analysis of one `register` call: either the duplicate check and the
post-loop occupancy check both pass, one entry is appended at the end and its
name — fresh for the file — is returned, or some error is thrown and the
entries array is untouched. -/
theorem register_total_cases (entries : List Entry) (resolver : ClashResolver)
    (requestedName : String) (descriptor file : Nat) (kind : String) :
    (∃ name, hasNameInFile entries name file = false ∧
      register entries resolver requestedName descriptor file kind =
        (.ok name, entries ++ [⟨file, descriptor, name, kind⟩])) ∨
    (∃ err, register entries resolver requestedName descriptor file kind =
      (.error err, entries)) := by
  simp only [register]
  cases h1 : hasKind entries descriptor kind with
  | false =>
    simp only [h1, Bool.false_eq_true, if_false]
    cases h2 : hasNameInFile entries
        (resolveLoop entries resolver descriptor file requestedName kind requestedName 0).1
        file with
    | false =>
      simp only [h2, Bool.false_eq_true, if_false]
      exact Or.inl ⟨_, h2, rfl⟩
    | true =>
      simp only [h2, if_true]
      exact Or.inr ⟨_, rfl⟩
  | true =>
    simp only [h1, if_true]
    cases hg : get entries descriptor kind with
    | ok e => simp only [hg]; exact Or.inr ⟨_, rfl⟩
    | error err => simp only [hg]; exact Or.inr ⟨_, rfl⟩

/-- C1: the duplicate check of `register` does not key on the requested
`(descriptor, kind)` pair.  Registering descriptor 1 twice under kind
`"class"` succeeds both times (the claim demands a `DuplicateRegistration`
failure on the second call), while with an existing `"default"`-kind entry a
`"class"`-kind registration for the same descriptor fails — and does so with
`SymbolNotFound`, not `DuplicateRegistration`. -/
theorem register_duplicate_check_keys_on_default_kind :
    register [] defaultResolver "Foo" 1 0 "class" =
      (.ok "Foo", [⟨0, 1, "Foo", "class"⟩]) ∧
    register [⟨0, 1, "Foo", "class"⟩] defaultResolver "Bar" 1 0 "class" =
      (.ok "Bar", [⟨0, 1, "Foo", "class"⟩, ⟨0, 1, "Bar", "class"⟩]) ∧
    register [⟨0, 1, "Foo", "default"⟩] defaultResolver "Bar" 1 0 "class" =
      (.error (.symbolNotFound "class" 1), [⟨0, 1, "Foo", "default"⟩]) :=
  ⟨rfl, rfl, rfl⟩

/-- C2: invariant I1 fails.  Starting from the empty registry, the two calls
`register("Foo", d1, fileX, "class")` and `register("Bar", d1, fileX,
"class")` both succeed and leave two distinct entries with the same
`(descriptor, kind)` pair. -/
theorem entity_uniqueness_fails_after_two_registers :
    runOps defaultResolver [("Foo", 1, 0, "class"), ("Bar", 1, 0, "class")] =
      [⟨0, 1, "Foo", "class"⟩, ⟨0, 1, "Bar", "class"⟩] ∧
    (Entry.mk 0 1 "Foo" "class").descriptor = (Entry.mk 0 1 "Bar" "class").descriptor ∧
    (Entry.mk 0 1 "Foo" "class").kind = (Entry.mk 0 1 "Bar" "class").kind ∧
    Entry.mk 0 1 "Foo" "class" ≠ Entry.mk 0 1 "Bar" "class" :=
  ⟨rfl, rfl, rfl, by decide⟩

/-- C3: both `has` overloads ignore an argument.  With the single entry
`(file 0, descriptor 1, "A", "class")`: the two-argument call
`has(d1, "class")` returns `false` although `find(d1, "class")` finds the
entry, and the three-argument call `has(d1, file 99, "class")` returns `true`
although file 99 holds no entry at all. -/
theorem has_overloads_ignore_arguments :
    hasKind [⟨0, 1, "A", "class"⟩] 1 "class" = false ∧
    find [⟨0, 1, "A", "class"⟩] 1 "class" = some ⟨0, 1, "A", "class"⟩ ∧
    hasInFile [⟨0, 1, "A", "class"⟩] 1 99 "class" = true :=
  ⟨rfl, rfl, rfl⟩

/-- C4: the default clash resolver, applied to a requested name that ends in
the separator `'$'`, drops the *first* character of the name
(`substring(1)`) instead of the trailing separator: `"Foo$"` at try 1 yields
`"oo$$1"`, not `"Foo$1"`; a name without a trailing `'$'` yields the intended
`requestedName + "$" + tryCount`. -/
theorem defaultClashResolver_drops_leading_char :
    defaultClashResolver 0 0 "Foo$" "default" 1 = "oo$$1" ∧
    defaultClashResolver 0 0 "Foo$" "default" 1 ≠ "Foo$1" ∧
    defaultClashResolver 0 0 "Foo" "default" 1 = "Foo$1" :=
  ⟨rfl, by decide, rfl⟩

/-- C5: the round trip fails.  After `register("Foo", d1, fileX, "class")`
and `register("Bar", d1, fileX, "class")` (the second call succeeds because
of the broken duplicate check and returns `"Bar"`), `find(d1, "class")`
returns the first matching entry, whose name is `"Foo"`, not the name
`"Bar"` just returned by `register`. -/
theorem round_trip_fails_after_duplicate_kind :
    register [⟨0, 1, "Foo", "class"⟩] defaultResolver "Bar" 1 0 "class" =
      (.ok "Bar", [⟨0, 1, "Foo", "class"⟩, ⟨0, 1, "Bar", "class"⟩]) ∧
    find [⟨0, 1, "Foo", "class"⟩, ⟨0, 1, "Bar", "class"⟩] 1 "class" =
      some ⟨0, 1, "Foo", "class"⟩ ∧
    ("Foo" : String) ≠ "Bar" :=
  ⟨rfl, rfl, by decide⟩

/-- C8 counterexample: a failing `register` call does not always raise
`DuplicateRegistration` or `ClashResolutionExhausted`.  With an existing
`"default"`-kind entry for descriptor 2, registering kind `"class"` for the
same descriptor trips the broken duplicate check, and the `get` call inside
the error path throws `SymbolNotFound` — a third error — with the entries
array unchanged. -/
theorem register_all_or_nothing_counterexample :
    register [⟨0, 2, "Foo", "default"⟩] defaultResolver "Bar" 2 0 "class" =
      (.error (.symbolNotFound "class" 1), [⟨0, 2, "Foo", "default"⟩]) ∧
    (match (register [⟨0, 2, "Foo", "default"⟩] defaultResolver "Bar" 2 0 "class").1 with
     | .error (.duplicateRegistration _ _ _ _) => False
     | .error (.clashResolutionExhausted _ _) => False
     | _ => True) :=
  ⟨rfl, trivial⟩

/-- C8 (amended): registration is all-or-nothing.  Every `register` call
either returns a name and appends exactly one entry — carrying that name,
the given file, descriptor, and kind — at the end of the entries array, or
throws a `DuplicateRegistration`, a `ClashResolutionExhausted`, or a
`SymbolNotFound` (the latter propagated from the `get` call inside the
duplicate-error path), leaving the entries array exactly as it was. -/
theorem register_all_or_nothing_amended (entries : List Entry) (resolver : ClashResolver)
    (requestedName : String) (descriptor file : Nat) (kind : String) :
    (∃ name, register entries resolver requestedName descriptor file kind =
      (.ok name, entries ++ [⟨file, descriptor, name, kind⟩])) ∨
    (∃ rn k ef en, register entries resolver requestedName descriptor file kind =
      (.error (.duplicateRegistration rn k ef en), entries)) ∨
    (∃ rn mt, register entries resolver requestedName descriptor file kind =
      (.error (.clashResolutionExhausted rn mt), entries)) ∨
    (∃ k n, register entries resolver requestedName descriptor file kind =
      (.error (.symbolNotFound k n), entries)) := by
  rcases register_total_cases entries resolver requestedName descriptor file kind with
    ⟨name, _, h⟩ | ⟨err, h⟩
  · exact Or.inl ⟨name, h⟩
  · cases err with
    | duplicateRegistration rn k ef en => exact Or.inr (Or.inl ⟨rn, k, ef, en, h⟩)
    | clashResolutionExhausted rn mt => exact Or.inr (Or.inr (Or.inl ⟨rn, mt, h⟩))
    | symbolNotFound k n => exact Or.inr (Or.inr (Or.inr ⟨k, n, h⟩))

end SymbolTable

namespace RuntimeLong

/-- C10: `reflectionLongConvert` is total over its cases and dispatches
`BIGINT` to `toBigInt()`, `NUMBER` to `toNumber()`, and both `STRING` and
`undefined` to `toString()`; in particular an `undefined` type argument
behaves exactly like `STRING` and yields a string. -/
theorem reflectionLongConvert_cases (long : PbLongLike) (type : Option LongType) :
    (reflectionLongConvert long type =
      match type with
      | some .BIGINT => .big long.toBigIntVal
      | some .NUMBER => .num long.toNumberVal
      | some .STRING => .str long.toStringVal
      | none => .str long.toStringVal) ∧
    reflectionLongConvert long none = reflectionLongConvert long (some .STRING) := by
  refine ⟨?_, rfl⟩
  cases type with
  | none => rfl
  | some t => cases t <;> rfl

end RuntimeLong

namespace SymbolTable

/-- Helper for C7: one `register` call preserves file-name disjointness,
because an entry is only appended after the post-loop check established that
its name is not yet taken in its file. -/
theorem applyOp_preserves_fileNameDisjoint (resolver : ClashResolver)
    (entries : List Entry) (op : String × Nat × Nat × String)
    (h : FileNameDisjoint entries) :
    FileNameDisjoint (applyOp resolver entries op) := by
  unfold applyOp
  rcases register_total_cases entries resolver op.1 op.2.1 op.2.2.1 op.2.2.2 with
    ⟨name, hfree, hr⟩ | ⟨err, hr⟩
  · rw [hr]
    show FileNameDisjoint (entries ++ [⟨op.2.2.1, op.2.1, name, op.2.2.2⟩])
    refine List.pairwise_append.mpr ⟨h, List.pairwise_singleton _ _, ?_⟩
    intro a ha b hb hf hn
    have hb2 : b = ⟨op.2.2.1, op.2.1, name, op.2.2.2⟩ := List.mem_singleton.mp hb
    subst hb2
    have htk : hasNameInFile entries name op.2.2.1 = true := by
      simp only [hasNameInFile, List.any_eq_true]
      exact ⟨a, ha, by simp [hf, hn]⟩
    rw [hfree] at htk
    exact Bool.false_ne_true htk
  · rw [hr]; exact h

/-- C7: invariant I2 holds.  After any sequence of `register` calls starting
from the empty registry, no two distinct entries share `(file, name)`; hence
any two entries of the resulting registry that agree on file and name are one
and the same entry, with equal descriptor and kind. -/
theorem per_file_uniqueness (resolver : ClashResolver)
    (ops : List (String × Nat × Nat × String)) :
    FileNameDisjoint (runOps resolver ops) ∧
    ∀ r1 ∈ runOps resolver ops, ∀ r2 ∈ runOps resolver ops,
      r1.file = r2.file → r1.name = r2.name →
      r1.descriptor = r2.descriptor ∧ r1.kind = r2.kind := by
  have key : ∀ (l : List (String × Nat × Nat × String)) (entries : List Entry),
      FileNameDisjoint entries → FileNameDisjoint (l.foldl (applyOp resolver) entries) := by
    intro l
    induction l with
    | nil => intro entries h; exact h
    | cons op l ih =>
      intro entries h
      exact ih _ (applyOp_preserves_fileNameDisjoint resolver entries op h)
  have hpw := key ops [] List.Pairwise.nil
  refine ⟨hpw, ?_⟩
  intro r1 h1 r2 h2 hf hn
  by_cases heq : r1 = r2
  · subst heq; exact ⟨rfl, rfl⟩
  · have hsym : Symmetric fun r1 r2 : Entry =>
        r1.file = r2.file → r1.name = r2.name → False :=
      fun x y hxy hf2 hn2 => hxy hf2.symm hn2.symm
    exact (List.Pairwise.forall hsym hpw h1 h2 heq hf hn).elim

/-- Witness for C7 at a concrete run of two registrations into one file. -/
theorem per_file_uniqueness_witness :
    FileNameDisjoint (runOps defaultResolver
      [("Foo", 1, 0, "default"), ("Foo", 2, 0, "default")]) ∧
    (Entry.mk 0 1 "Foo" "default").descriptor = 1 :=
  ⟨(per_file_uniqueness defaultResolver
      [("Foo", 1, 0, "default"), ("Foo", 2, 0, "default")]).1,
   ((per_file_uniqueness defaultResolver
      [("Foo", 1, 0, "default"), ("Foo", 2, 0, "default")]).2
      ⟨0, 1, "Foo", "default"⟩ (by decide) ⟨0, 1, "Foo", "default"⟩ (by decide) rfl rfl).1⟩

end SymbolTable

namespace SymbolTable

/-- Helper for C9: membership in the deduplicated file list of `get`. -/
theorem mem_distinctFiles (entries : List Entry) (v : Nat) :
    v ∈ distinctFiles entries ↔ v ∈ entries.map Entry.file := by
  simp only [distinctFiles]
  constructor
  · intro h
    obtain ⟨⟨i, x⟩, hp, rfl⟩ := List.mem_map.mp h
    exact List.getElem?_mem
      (List.mk_mem_enum_iff_getElem?.mp (List.mem_filter.mp hp).1)
  · intro hv
    refine List.mem_map.mpr ⟨((entries.map Entry.file).indexOf v, v), List.mem_filter.mpr ⟨?_, ?_⟩, rfl⟩
    · exact List.mk_mem_enum_iff_getElem?.mpr (List.getElem?_indexOf hv)
    · simp

/-- Helper for C9: the deduplicated file list contains no duplicates. -/
theorem distinctFiles_nodup (entries : List Entry) : (distinctFiles entries).Nodup := by
  simp only [distinctFiles]
  have henum : (entries.map Entry.file).enum.Nodup :=
    List.Nodup.of_map Prod.fst (List.nodup_enum_map_fst (entries.map Entry.file))
  refine List.Nodup.map_on ?_
    (henum.filter fun p => (entries.map Entry.file).indexOf p.2 == p.1)
  rintro ⟨x1, x2⟩ hx ⟨y1, y2⟩ hy hxy
  have ex : (entries.map Entry.file).indexOf x2 = x1 := by
    have h2 := (List.mem_filter.mp hx).2
    simp only [beq_iff_eq] at h2
    exact h2
  have ey : (entries.map Entry.file).indexOf y2 = y1 := by
    have h2 := (List.mem_filter.mp hy).2
    simp only [beq_iff_eq] at h2
    exact h2
  simp only at hxy
  subst hxy
  rw [ex] at ey
  rw [ey]

/-- Helper for C9: the length of the deduplicated file list equals the number
of distinct files (by identity) currently holding at least one entry. -/
theorem distinctFiles_length (entries : List Entry) :
    (distinctFiles entries).length = (entries.map Entry.file).toFinset.card := by
  have h1 : (distinctFiles entries).toFinset = (entries.map Entry.file).toFinset := by
    ext v
    simp [List.mem_toFinset, mem_distinctFiles]
  rw [← h1, List.toFinset_card_of_nodup (distinctFiles_nodup entries)]

/-- C9: `get` returns exactly what `find` returns when an entry exists, and
otherwise throws `SymbolNotFound` carrying the number of distinct files (by
identity) that currently hold at least one entry. -/
theorem get_find_agreement (entries : List Entry) (descriptor : Nat) (kind : String) :
    (∀ e, find entries descriptor kind = some e → get entries descriptor kind = .ok e) ∧
    (find entries descriptor kind = none →
      get entries descriptor kind =
        .error (.symbolNotFound kind (entries.map Entry.file).toFinset.card)) := by
  constructor
  · intro e he
    simp [get, he]
  · intro hn
    simp [get, hn, distinctFiles_length]

/-- Witness for C9 on a registry spanning two distinct files: a missing
descriptor yields `SymbolNotFound` with the file count 2, and a present
descriptor yields the entry `find` returns. -/
theorem get_find_agreement_witness :
    get [⟨0, 1, "A", "class"⟩, ⟨0, 2, "B", "class"⟩, ⟨3, 4, "C", "class"⟩] 9 "class" =
      .error (.symbolNotFound "class" 2) ∧
    get [⟨0, 1, "A", "class"⟩, ⟨0, 2, "B", "class"⟩, ⟨3, 4, "C", "class"⟩] 1 "class" =
      .ok ⟨0, 1, "A", "class"⟩ := by
  constructor
  · have h := (get_find_agreement [⟨0, 1, "A", "class"⟩, ⟨0, 2, "B", "class"⟩,
      ⟨3, 4, "C", "class"⟩] 9 "class").2 rfl
    exact h.trans (by rfl)
  · exact (get_find_agreement [⟨0, 1, "A", "class"⟩, ⟨0, 2, "B", "class"⟩,
      ⟨3, 4, "C", "class"⟩] 1 "class").1 ⟨0, 1, "A", "class"⟩ rfl

end SymbolTable

namespace SymbolTable

/-- Helper for C6: one unfolding step of the resolver loop when its guard
holds. -/
theorem resolveLoopAux_step (entries : List Entry) (resolver : ClashResolver)
    (d f : Nat) (rn k : String) (fuel : Nat) (name : String) (count : Nat)
    (h : hasNameInFile entries name f = true ∧ count < clashResolveMaxTries) :
    resolveLoopAux entries resolver d f rn k (fuel + 1) name count =
      ((resolveLoopAux entries resolver d f rn k fuel
          (resolver d f rn k (count + 1) name) (count + 1)).1,
       (resolveLoopAux entries resolver d f rn k fuel
          (resolver d f rn k (count + 1) name) (count + 1)).2.1,
       ⟨d, f, rn, k, count + 1, name⟩ ::
         (resolveLoopAux entries resolver d f rn k fuel
            (resolver d f rn k (count + 1) name) (count + 1)).2.2) := by
  simp only [resolveLoopAux]
  rw [if_pos h]

/-- Helper for C6: when the current name is taken in the target file and the
resolver only ever proposes taken names, the loop runs until `count` reaches
the try budget, calling the resolver once per remaining try with try counts
`count+1, …, 100`, each call receiving the previously failed candidate. -/
theorem resolveLoopAux_exhausts (entries : List Entry) (resolver : ClashResolver)
    (d f : Nat) (rn k : String)
    (htaken : ∀ a b rn2 k2 tc fn,
      hasNameInFile entries (resolver a b rn2 k2 tc fn) f = true) :
    ∀ (fuel count : Nat) (name : String), count + fuel = clashResolveMaxTries →
      hasNameInFile entries name f = true →
      hasNameInFile entries
        (resolveLoopAux entries resolver d f rn k fuel name count).1 f = true ∧
      (resolveLoopAux entries resolver d f rn k fuel name count).2.1 =
        clashResolveMaxTries ∧
      (resolveLoopAux entries resolver d f rn k fuel name count).2.2.length = fuel ∧
      (resolveLoopAux entries resolver d f rn k fuel name count).2.2.map
        ResolverCall.tryCount = List.range' (count + 1) fuel ∧
      (∀ c ∈ (resolveLoopAux entries resolver d f rn k fuel name count).2.2,
        c.descriptor = d ∧ c.file = f ∧ c.requestedName = rn ∧ c.kind = k) ∧
      (resolveLoopAux entries resolver d f rn k fuel name count).2.2.head? =
        (if fuel = 0 then none else some ⟨d, f, rn, k, count + 1, name⟩) ∧
      List.Chain' (resolverChain resolver)
        (resolveLoopAux entries resolver d f rn k fuel name count).2.2 := by
  intro fuel
  induction fuel with
  | zero =>
    intro count name hc hn
    simp only [resolveLoopAux]
    exact ⟨hn, by omega, rfl, rfl, by simp, rfl, trivial⟩
  | succ fuel ih =>
    intro count name hc hn
    have hlt : count < clashResolveMaxTries := by omega
    rw [resolveLoopAux_step entries resolver d f rn k fuel name count ⟨hn, hlt⟩]
    obtain ⟨ihA, ihB, ihC, ihD, ihE, ihF, ihG⟩ :=
      ih (count + 1) (resolver d f rn k (count + 1) name) (by omega)
        (htaken d f rn k (count + 1) name)
    refine ⟨ihA, ihB, ?_, ?_, ?_, ?_, ?_⟩
    · simp [ihC]
    · simp only [List.map_cons, ihD]
      rfl
    · intro c hc2
      rcases List.mem_cons.mp hc2 with h | h
      · subst h; exact ⟨rfl, rfl, rfl, rfl⟩
      · exact ihE c h
    · simp
    · refine List.chain'_cons'.mpr ⟨?_, ihG⟩
      intro y hy
      rw [ihF] at hy
      by_cases hf0 : fuel = 0
      · rw [if_pos hf0] at hy
        cases hy
      · rw [if_neg hf0] at hy
        cases hy
        rfl

/-- C6 (amended): for every registry state in which the duplicate check
passes (no entry for `(descriptor, "default")`, which is what the `has` call
inside `register` actually tests) and in which the requested name is already
taken in the target file, a resolver that always returns a name already taken
in the target file makes `register` invoke the resolver exactly 100 times —
with try counts 1 through 100, the constant arguments `(descriptor, file,
requestedName, kind)`, the first call receiving `requestedName` as the failed
candidate and each later call receiving the previous resolver result — and
then fail with `ClashResolutionExhausted`, leaving the registry unchanged. -/
theorem bounded_resolution_exhausts (entries : List Entry) (resolver : ClashResolver)
    (requestedName : String) (descriptor file : Nat) (kind : String)
    (hdup : find entries descriptor "default" = none)
    (hreq : hasNameInFile entries requestedName file = true)
    (htaken : ∀ a b rn2 k2 tc fn,
      hasNameInFile entries (resolver a b rn2 k2 tc fn) file = true) :
    register entries resolver requestedName descriptor file kind =
      (.error (.clashResolutionExhausted requestedName clashResolveMaxTries), entries) ∧
    (resolveLoop entries resolver descriptor file requestedName kind
      requestedName 0).2.2.length = clashResolveMaxTries ∧
    (resolveLoop entries resolver descriptor file requestedName kind
      requestedName 0).2.2.map ResolverCall.tryCount =
      List.range' 1 clashResolveMaxTries ∧
    (∀ c ∈ (resolveLoop entries resolver descriptor file requestedName kind
      requestedName 0).2.2,
      c.descriptor = descriptor ∧ c.file = file ∧
      c.requestedName = requestedName ∧ c.kind = kind) ∧
    (resolveLoop entries resolver descriptor file requestedName kind
      requestedName 0).2.2.head? =
      some ⟨descriptor, file, requestedName, kind, 1, requestedName⟩ ∧
    List.Chain' (resolverChain resolver)
      (resolveLoop entries resolver descriptor file requestedName kind
        requestedName 0).2.2 := by
  obtain ⟨hA, hB, hC, hD, hE, hF, hG⟩ :=
    resolveLoopAux_exhausts entries resolver descriptor file requestedName kind htaken
      clashResolveMaxTries 0 requestedName (by omega) hreq
  have hloop : resolveLoop entries resolver descriptor file requestedName kind
      requestedName 0 =
      resolveLoopAux entries resolver descriptor file requestedName kind
        clashResolveMaxTries requestedName 0 := rfl
  have hreg : register entries resolver requestedName descriptor file kind =
      (.error (.clashResolutionExhausted requestedName clashResolveMaxTries), entries) := by
    have h1 : hasKind entries descriptor kind = false := by
      simp [hasKind, has, hdup]
    have h2 : hasNameInFile entries (resolveLoop entries resolver descriptor file
        requestedName kind requestedName 0).1 file = true := by
      rw [hloop]; exact hA
    simp only [register, h1, Bool.false_eq_true, if_false, h2, if_true]
  refine ⟨hreg, ?_, ?_, ?_, ?_, ?_⟩ <;> rw [hloop]
  · exact hC
  · exact hD
  · exact hE
  · rw [hF]; rfl
  · exact hG

/-- Witness for C6 (amended): one entry named "taken" in file 0, a resolver
that always proposes "taken", and the taken requested name "taken": the call
fails with `ClashResolutionExhausted` after a trace of exactly 100 resolver
invocations, leaving the registry unchanged. -/
theorem bounded_resolution_exhausts_witness :
    register [⟨0, 5, "taken", "default"⟩] constTakenResolver "taken" 1 0 "default" =
      (.error (.clashResolutionExhausted "taken" clashResolveMaxTries),
        [⟨0, 5, "taken", "default"⟩]) ∧
    (resolveLoop [⟨0, 5, "taken", "default"⟩] constTakenResolver 1 0 "taken" "default"
      "taken" 0).2.2.length = clashResolveMaxTries :=
  ⟨(bounded_resolution_exhausts [⟨0, 5, "taken", "default"⟩] constTakenResolver
      "taken" 1 0 "default" rfl rfl (fun _ _ _ _ _ _ => rfl)).1,
   (bounded_resolution_exhausts [⟨0, 5, "taken", "default"⟩] constTakenResolver
      "taken" 1 0 "default" rfl rfl (fun _ _ _ _ _ _ => rfl)).2.1⟩

/-- C6 counterexample: a resolver that always returns the already-taken name
"taken" does not force 100 invocations and a failure — when the requested
name itself is free in the file, `register` succeeds without invoking the
resolver at all (the loop trace is empty). -/
theorem bounded_resolution_counterexample :
    constTakenResolver 1 0 "free" "default" 1 "free" = "taken" ∧
    hasNameInFile [⟨0, 5, "taken", "default"⟩] "taken" 0 = true ∧
    register [⟨0, 5, "taken", "default"⟩] constTakenResolver "free" 1 0 "default" =
      (.ok "free", [⟨0, 5, "taken", "default"⟩, ⟨0, 1, "free", "default"⟩]) ∧
    (resolveLoop [⟨0, 5, "taken", "default"⟩] constTakenResolver 1 0 "free" "default"
      "free" 0).2.2.length = 0 :=
  ⟨rfl, rfl, rfl, rfl⟩

end SymbolTable
